import Mathlib

/-!
Formalization of the Mashups music-discovery tool: the BPM/key compatibility
matcher, the result ranker, the pseudo-feature estimator, the key
compatibility tables, the fallback catalog search, and the request
validation of the compatibility endpoint.  Each definition is a shallow
embedding of the corresponding TypeScript function; JavaScript numeric
idioms (truthiness, parseInt, Math.round of a half) are modelled
explicitly.
-/

namespace Mashups

/-- lowercase of a string, character by character (models toLowerCase on the
ASCII data the app handles). -/
def jsToLower (s : String) : String := String.mk (s.data.map Char.toLower)

/-- substring test on character lists: some tail of the haystack starts with
the needle. -/
def listIncludes (l sub : List Char) : Bool := l.tails.any fun t => sub.isPrefixOf t

/-- models JavaScript includes: substring containment. -/
def jsIncludes (s sub : String) : Bool := listIncludes s.data sub.data

/-- absolute difference of naturals, the value of Math.abs(a - b) on integer
inputs, encoded with truncated subtraction. -/
def absDiffN (a b : Nat) : Nat := (a - b) + (b - a)

/-- Math.round(n / 2) for a nonnegative integer n: round half up. -/
def roundHalf (n : Nat) : Nat := (n + 1) / 2

/-- sum of the character codes of a string, the reduce over charCodeAt used
by the pseudo-feature hash. -/
def charSum (s : String) : Nat := s.data.foldl (fun acc c => acc + c.toNat) 0

/-- numeric value of a digit run. -/
def digitsVal (l : List Char) : Nat := l.foldl (fun a c => a * 10 + (c.toNat - 48)) 0

/-- models JavaScript parseInt in base 10: skip leading whitespace, optional
sign, then the longest run of decimal digits; none models NaN. -/
def jsParseInt (s : String) : Option Int :=
  let t := s.data.dropWhile fun c => [' ', '\t', '\n', '\r'].contains c
  match t with
  | '-' :: r =>
      let ds := r.takeWhile Char.isDigit
      if ds.isEmpty then none else some (-(digitsVal ds : Int))
  | '+' :: r =>
      let ds := r.takeWhile Char.isDigit
      if ds.isEmpty then none else some (digitsVal ds)
  | r =>
      let ds := r.takeWhile Char.isDigit
      if ds.isEmpty then none else some (digitsVal ds)

/-- result of one tempo-compatibility check: the bpmMatch flag and the
bpmDifference score (initialized to 999 by the route and left there on a
non-match). -/
structure MatchResult where
  isMatch : Bool
  distance : Nat
deriving DecidableEq, Repr

/-- measured-feature branch of the compatibility filter (route lines
1263-1283): exact, double, half, or rounded-half relations give distance 0;
otherwise near-exact, near-double, near-half within 5 BPM give that
absolute difference; otherwise no match. -/
def measuredCompat (actualBpm bpm : Nat) : MatchResult :=
  if actualBpm = bpm ∨ actualBpm = bpm * 2 ∨ actualBpm = roundHalf bpm ∨
      roundHalf actualBpm = bpm then
    ⟨true, 0⟩
  else if absDiffN actualBpm bpm ≤ 5 then ⟨true, absDiffN actualBpm bpm⟩
  else if absDiffN actualBpm (bpm * 2) ≤ 5 then ⟨true, absDiffN actualBpm (bpm * 2)⟩
  else if absDiffN actualBpm (roundHalf bpm) ≤ 5 then ⟨true, absDiffN actualBpm (roundHalf bpm)⟩
  else ⟨false, 999⟩

/-- estimated-feature branch of the compatibility filter (route lines
1284-1295): guarded by the truthiness of song.bpm; on exact, double,
rounded-half, or within-5 relations the bpmDifference is always the plain
absolute difference to the target. -/
def estimatedCompat (songBpm bpm : Nat) : MatchResult :=
  if songBpm ≠ 0 then
    if songBpm = bpm ∨ songBpm = bpm * 2 ∨ songBpm = roundHalf bpm ∨
        absDiffN songBpm bpm ≤ 5 then
      ⟨true, absDiffN songBpm bpm⟩
    else ⟨false, 999⟩
  else ⟨false, 999⟩

/-- fixed key list of the pseudo-feature generator (25 entries, musicService
lines 639-644). -/
def fallbackKeys : List String :=
  ["C major", "G major", "D major", "A major", "E major", "B major", "F# major",
   "C# major", "F major", "Bb major", "Eb major", "Ab major", "Db major",
   "A minor", "E minor", "B minor", "F# minor", "C# minor", "G# minor",
   "D# minor", "D minor", "G minor", "C minor", "F minor", "Bb minor"]

/-- deterministic pseudo-feature generator (musicService lines 637-657): a
character-code hash of title+artist fixes the bpm in 60..180 and picks a key
from the fixed list. -/
def generateFallbackFeatures (title artist : String) : Nat × String :=
  let hash := charSum (title ++ artist)
  (60 + hash % 121, fallbackKeys.getD (hash % fallbackKeys.length) "undefined")

/-- the 12 pitch-class names of the Spotify notation table. -/
def pitchClasses : List String :=
  ["C", "C#", "D", "D#"] ++ ["E", "F", "F#", "G"] ++ ["G#", "A", "A#", "B"]

/-- the 24 canonical major and minor key names derived from the 12 pitch
classes. -/
def canonicalKeys : List String :=
  (pitchClasses.map fun p => p ++ " major") ++ (pitchClasses.map fun p => p ++ " minor")

/-- JavaScript indexing into the pitch-class array: an out-of-range read
gives undefined, which renders as the text undefined inside a template
literal. -/
def pitchClassAt (k : Int) : String :=
  if 0 ≤ k ∧ k < 12 then pitchClasses.getD k.toNat "undefined" else "undefined"

/-- musicService key compatibility table (lines 911-946): 26 entries of at
most 5 compatible keys each. -/
def keyCompatibility : List (String × List String) :=
  [("C major", ["A minor", "F major", "G major", "D minor", "E minor"]),
   ("G major", ["E minor", "C major", "D major", "A minor", "B minor"]),
   ("D major", ["B minor", "G major", "A major", "E minor", "F# minor"]),
   ("A major", ["F# minor", "D major", "E major", "B minor", "C# minor"]),
   ("E major", ["C# minor", "A major", "B major", "F# minor", "G# minor"]),
   ("B major", ["G# minor", "E major", "F# major", "C# minor", "D# minor"]),
   ("F# major", ["D# minor", "B major", "C# major", "G# minor", "A# minor"]),
   ("C# major", ["A# minor", "F# major", "G# major", "D# minor", "F minor"]),
   ("F major", ["D minor", "C major", "Bb major", "A minor", "G minor"]),
   ("Bb major", ["G minor", "F major", "Eb major", "D minor", "C minor"]),
   ("Eb major", ["C minor", "Bb major", "Ab major", "G minor", "F minor"]),
   ("Ab major", ["F minor", "Eb major", "Db major", "C minor", "Bb minor"]),
   ("Db major", ["Bb minor", "Ab major", "Gb major", "F minor", "Eb minor"]),
   ("A minor", ["C major", "F major", "G major", "D minor", "E minor"]),
   ("E minor", ["G major", "C major", "D major", "A minor", "B minor"]),
   ("B minor", ["D major", "G major", "A major", "E minor", "F# minor"]),
   ("F# minor", ["A major", "D major", "E major", "B minor", "C# minor"]),
   ("C# minor", ["E major", "A major", "B major", "F# minor", "G# minor"]),
   ("G# minor", ["B major", "E major", "F# major", "C# minor", "D# minor"]),
   ("D# minor", ["F# major", "B major", "C# major", "G# minor", "A# minor"]),
   ("A# minor", ["C# major", "F# major", "D# major", "D# minor", "F minor"]),
   ("D minor", ["F major", "C major", "Bb major", "A minor", "G minor"]),
   ("G minor", ["Bb major", "F major", "Eb major", "D minor", "C minor"]),
   ("C minor", ["Eb major", "Bb major", "Ab major", "G minor", "F minor"]),
   ("F minor", ["Ab major", "Eb major", "Db major", "C minor", "Bb minor"]),
   ("Bb minor", ["Db major", "Ab major", "Gb major", "F minor", "Eb minor"])]

/-- key lookup with reflexive fallback (musicService lines 911-946). -/
def getCompatibleKeys (key : String) : List String :=
  match keyCompatibility.lookup key with
  | some ks => ks
  | none => [key]

/-- compatible route key compatibility table (lines 1094-1113): 14 entries. -/
def keyCompatibilityCompat : List (String × List String) :=
  [("C major", ["A minor", "F major", "G major", "D minor", "E minor"]),
   ("G major", ["E minor", "C major", "D major", "A minor", "B minor"]),
   ("D major", ["B minor", "G major", "A major", "E minor", "F# minor"]),
   ("A major", ["F# minor", "D major", "E major", "B minor", "C# minor"]),
   ("E major", ["C# minor", "A major", "B major", "F# minor", "G# minor"]),
   ("F major", ["D minor", "C major", "Bb major", "A minor", "G minor"]),
   ("Bb major", ["G minor", "F major", "Eb major", "D minor", "C minor"]),
   ("A minor", ["C major", "F major", "G major", "D minor", "E minor"]),
   ("E minor", ["G major", "C major", "D major", "A minor", "B minor"]),
   ("B minor", ["D major", "G major", "A major", "E minor", "F# minor"]),
   ("F# minor", ["A major", "D major", "E major", "B minor", "C# minor"]),
   ("C# minor", ["E major", "A major", "B major", "F# minor", "G# minor"]),
   ("D minor", ["F major", "C major", "Bb major", "A minor", "G minor"]),
   ("G minor", ["Bb major", "F major", "Eb major", "D minor", "C minor"])]

/-- key lookup with reflexive fallback, compatible route version (lines
1094-1113). -/
def getCompatibleKeysCompat (key : String) : List String :=
  match keyCompatibilityCompat.lookup key with
  | some ks => ks
  | none => [key]

/-- provider track fields the routes read: id, name, artist names, album
name and duration in milliseconds.  Presentation-only url fields (preview,
artwork, external link) are not modelled. -/
structure SpotifyTrackIn where
  id : String
  name : String
  artists : List String
  albumName : String
  duration_ms : Nat
deriving DecidableEq, Repr

/-- audio-feature fields the routes read; tempo is modelled at integer
precision, so Math.round of it is the value itself. -/
structure AudioFeatures where
  tempo : Nat
  key : Int
  mode : Nat
deriving DecidableEq, Repr

/-- normalized track record produced by the api routes (url fields again not
modelled). -/
structure RouteSong where
  id : String
  title : String
  artist : String
  bpm : Nat
  key : String
  duration : Nat
  source : String
deriving DecidableEq, Repr

/-- key list of the estimated branch of both route converters (14 entries,
part_002 lines 137-140 and route line 1075). -/
def estimationKeys : List String :=
  ["C major", "G major", "D major", "A major", "E major", "F major", "Bb major",
   "A minor", "E minor", "B minor", "F# minor", "C# minor", "D minor", "G minor"]

/-- Math.round(ms / 1000), rounding half up. -/
def roundMsToSec (ms : Nat) : Nat := (ms + 500) / 1000

/-- search route converter (part_002 lines 121-156): measured keys are the
short pitch-class form, suffixed m for minor; estimated features come from
the character-code hash.  In the source an empty artist array throws before
any record is built, so the head default never reaches a constructed
record. -/
def convertSearchRoute (t : SpotifyTrackIn) (f : Option AudioFeatures) : RouteSong :=
  match f with
  | some af =>
      { id := t.id, title := t.name, artist := String.intercalate ", " t.artists,
        bpm := af.tempo,
        key := pitchClassAt af.key ++ (if af.mode = 1 then "" else "m"),
        duration := roundMsToSec t.duration_ms, source := "spotify" }
  | none =>
      let hash := charSum (t.name ++ t.artists.headD "")
      { id := t.id, title := t.name, artist := String.intercalate ", " t.artists,
        bpm := 60 + hash % 121,
        key := estimationKeys.getD (hash % estimationKeys.length) "undefined",
        duration := roundMsToSec t.duration_ms, source := "spotify-estimated" }

/-- compatible route converter (lines 1064-1091): measured keys are the
pitch-class name followed by the long mode name. -/
def convertCompatRoute (t : SpotifyTrackIn) (f : Option AudioFeatures) : RouteSong :=
  match f with
  | some af =>
      { id := t.id, title := t.name, artist := String.intercalate ", " t.artists,
        bpm := af.tempo,
        key := pitchClassAt af.key ++ (if af.mode = 1 then " major" else " minor"),
        duration := roundMsToSec t.duration_ms, source := "spotify" }
  | none =>
      let hash := charSum (t.name ++ t.artists.headD "")
      { id := t.id, title := t.name, artist := String.intercalate ", " t.artists,
        bpm := 60 + hash % 121,
        key := estimationKeys.getD (hash % estimationKeys.length) "undefined",
        duration := roundMsToSec t.duration_ms, source := "spotify-estimated" }

/-- client-side track record of the types module and the fallback catalog. -/
structure Song where
  id : String
  title : String
  artist : String
  bpm : Nat
  key : String
  duration : Nat
  youtube_id : String
  dataSource : String
deriving DecidableEq, Repr

/-- the static fallback catalog (musicService lines 709-790, 8 entries). -/
def FALLBACK_SONGS : List Song :=
  [⟨"1", "Blinding Lights", "The Weeknd", 171, "F# minor", 200, "4NRXx6U8ABQ", "fallback"⟩,
   ⟨"2", "Watermelon Sugar", "Harry Styles", 95, "C major", 174, "E07s5ZYygMg", "fallback"⟩,
   ⟨"3", "Levitating", "Dua Lipa", 103, "B major", 203, "TUVcZfQe-Kw", "fallback"⟩,
   ⟨"4", "Good 4 U", "Olivia Rodrigo", 166, "A major", 178, "gNi_6U5Pm_o", "fallback"⟩,
   ⟨"5", "Stay", "The Kid LAROI & Justin Bieber", 95, "C major", 141, "kTJczUoc26U", "fallback"⟩,
   ⟨"6", "Bad Habits", "Ed Sheeran", 126, "B minor", 231, "orJSJGHjBLI", "fallback"⟩,
   ⟨"7", "Industry Baby", "Lil Nas X ft. Jack Harlow", 150, "D minor", 212, "UTHLKHL_whs", "fallback"⟩,
   ⟨"8", "Heat Waves", "Glass Animals", 80, "E minor", 238, "mRD0-GxqHVo", "fallback"⟩]

/-- search result record returned to the interface layer. -/
structure SearchResult where
  songs : List Song
  total : Nat
  page : Nat
deriving DecidableEq, Repr

/-- the client fallback filter: case-insensitive substring match of the
query over title and artist. -/
def fallbackMatches (query : String) (song : Song) : Bool :=
  jsIncludes (jsToLower song.title) (jsToLower query) ||
  jsIncludes (jsToLower song.artist) (jsToLower query)

/-- musicService.searchSongs (lines 793-834): the first argument is the
outcome of the proxy call, where ok carries the optional tracks field of the
response body and error is any rejection; every rejection takes the catch
branch, which filters the static catalog and paginates it with slice. -/
def searchSongs (apiResult : Except Unit (Option (List Song))) (query : String)
    (page limit : Nat) : SearchResult :=
  match apiResult with
  | Except.ok (some tracks) => { songs := tracks, total := tracks.length, page := page }
  | Except.ok none => { songs := [], total := 0, page := page }
  | Except.error _ =>
      let filtered := FALLBACK_SONGS.filter (fallbackMatches query)
      { songs := (filtered.drop ((page - 1) * limit)).take limit,
        total := filtered.length, page := page }

/-- value of the expression that reads the bpm parameter with the or-default
of the digit zero: absent and empty parameters both become the digit zero. -/
def bpmRaw (p : Option String) : String :=
  match p with
  | none => "0"
  | some s => if s = "" then "0" else s

/-- outcome of the compatibility endpoint validation (route lines
1115-1125): a falsy parsed bpm (0 or NaN) yields the 400 client error with
no fallback data attached; any other parsed value proceeds to the search. -/
inductive CompatGate where
  | clientError
  | proceeds (bpm : Int)
deriving DecidableEq, Repr

/-- the bpm guard of the compatibility endpoint. -/
def compatibleEndpointGate (bpmParam : Option String) : CompatGate :=
  match jsParseInt (bpmRaw bpmParam) with
  | none => CompatGate.clientError
  | some v => if v = 0 then CompatGate.clientError else CompatGate.proceeds v

/-- default base search terms of the compatible route (lines 1135-1138). -/
def defaultBaseTerms : List String :=
  ["pop", "rock", "hip hop", "electronic", "dance", "indie", "alternative",
   "r&b", "reggaeton", "latin", "jazz", "funk", "house", "techno"]

/-- default genre tags of the compatible route (lines 1141-1144). -/
def defaultGenres : List String :=
  ["pop", "rock", "hip-hop", "electronic", "dance", "indie", "alternative",
   "r-n-b", "reggaeton", "latin", "jazz", "funk", "house", "techno", "country"]

/-- query construction of the compatible route (lines 1132-1161): the first
3 base terms crossed with the first 5 genres and two year windows, then the
raw search terms and an optional term-genre pair when search terms were
supplied.  Empty strings model absent parameters, which are falsy. -/
def buildSearchQueries (searchTerms genre : String) : List String :=
  let baseTerms := if searchTerms ≠ "" then [searchTerms] else defaultBaseTerms
  let genres := if genre ≠ "" then [genre] else defaultGenres
  let combos := (baseTerms.take 3).flatMap fun term =>
    (genres.take 5).flatMap fun g =>
      [term ++ " genre:" ++ g ++ " year:2020-2024",
       term ++ " genre:" ++ g ++ " year:2015-2019"]
  let extras :=
    if searchTerms ≠ "" then
      [searchTerms] ++ (if genre ≠ "" then [searchTerms ++ " genre:" ++ genre] else [])
    else []
  combos ++ extras

/-- denylist of non-music markers (lines 1193-1196). -/
def excludeTermsList : List String :=
  ["karaoke", "instrumental version", "backing track", "ringtone",
   "sound effect", "audiobook", "podcast", "meditation", "nature sounds"]

/-- content filter of the compatible route (lines 1187-1200): lowercased
track, album and first-artist names checked against the denylist. -/
def isExcludedContent (t : SpotifyTrackIn) : Bool :=
  excludeTermsList.any fun term =>
    jsIncludes (jsToLower t.name) term ||
    jsIncludes (jsToLower t.albumName) term ||
    jsIncludes (jsToLower (t.artists.headD "")) term

/-- plausible song-length window (lines 1202-1204): duration in minutes
between 1.5 and 8, which is exactly 90000 to 480000 milliseconds. -/
def isGoodLength (t : SpotifyTrackIn) : Bool :=
  decide (90000 ≤ t.duration_ms) && decide (t.duration_ms ≤ 480000)

/-- per-query track handling of the compatible route (lines 1168-1213): a
failed query contributes nothing; a successful one is filtered by
excludeId, the content denylist and the length window. -/
def perQueryTracks (excludeId : String) (fetched : Option (List SpotifyTrackIn)) :
    List SpotifyTrackIn :=
  match fetched with
  | none => []
  | some items =>
      (items.filter fun t => t.id != excludeId).filter fun t =>
        !(isExcludedContent t) && isGoodLength t

/-- track collection over at most 8 queries (line 1168). -/
def collectTracks (queries : List String) (fetch : String → Option (List SpotifyTrackIn))
    (excludeId : String) : List SpotifyTrackIn :=
  (queries.take 8).flatMap fun q => perQueryTracks excludeId (fetch q)

/-- duplicate removal keeping the first occurrence of each id (lines
1216-1218). -/
def dedupByIdAux : List SpotifyTrackIn → List String → List SpotifyTrackIn
  | [], _ => []
  | t :: rest, seen =>
      if seen.contains t.id then dedupByIdAux rest seen
      else t :: dedupByIdAux rest (t.id :: seen)

/-- the uniqueTracks list of the compatible route. -/
def uniqueById (l : List SpotifyTrackIn) : List SpotifyTrackIn := dedupByIdAux l []

/-- scored candidate of the compatible route (lines 1297-1303). -/
structure ScoredTrack where
  song : RouteSong
  bpmMatch : Bool
  bpmDifference : Nat
  hasRealFeatures : Bool
  actualBpm : Nat
deriving DecidableEq, Repr

/-- scoring of one track (lines 1256-1303): with audio features the
measured branch runs on the rounded tempo; without them the estimated
branch runs on the estimated song bpm. -/
def scoreTrack (bpm : Nat) (features : String → Option AudioFeatures)
    (t : SpotifyTrackIn) : ScoredTrack :=
  let af := features t.id
  let song := convertCompatRoute t af
  match af with
  | some f =>
      let m := measuredCompat f.tempo bpm
      ⟨song, m.isMatch, m.distance, true, f.tempo⟩
  | none =>
      let m := estimatedCompat song.bpm bpm
      ⟨song, m.isMatch, m.distance, false, song.bpm⟩

/-- the sort order of the ranker (lines 1306-1314): a sorts no later than b
when its distance is smaller, or the distances tie and a does not lose the
measured-before-estimated tie-break.  This is exactly the set of pairs on
which the source comparator is nonpositive. -/
def scoreLE (a b : ScoredTrack) : Prop :=
  a.bpmDifference < b.bpmDifference ∨
    (a.bpmDifference = b.bpmDifference ∧
      (a.hasRealFeatures = true ∨ b.hasRealFeatures = false))

instance : DecidableRel scoreLE := fun a b => by
  unfold scoreLE; exact inferInstance

instance : IsTotal ScoredTrack scoreLE :=
  ⟨by
    intro a b
    unfold scoreLE
    rcases Nat.lt_trichotomy a.bpmDifference b.bpmDifference with h | h | h
    · exact Or.inl (Or.inl h)
    · cases hr : a.hasRealFeatures
      · exact Or.inr (Or.inr ⟨h.symm, Or.inr rfl⟩)
      · exact Or.inl (Or.inr ⟨h, Or.inl rfl⟩)
    · exact Or.inr (Or.inl h)⟩

instance : IsTrans ScoredTrack scoreLE :=
  ⟨by
    intro a b c hab hbc
    unfold scoreLE at hab hbc ⊢
    rcases hab with h1 | ⟨h1, h1t⟩ <;> rcases hbc with h2 | ⟨h2, h2t⟩
    · exact Or.inl (h1.trans h2)
    · exact Or.inl (h2 ▸ h1)
    · exact Or.inl (h1 ▸ h2)
    · refine Or.inr ⟨h1.trans h2, ?_⟩
      rcases h1t with h | h
      · exact Or.inl h
      · rcases h2t with h' | h'
        · rw [h] at h'; cases h'
        · exact Or.inr h'⟩

/-- matched, scored candidates of the compatible route, in collection
order. -/
def scoredMatches (bpm : Nat) (excludeId searchTerms genre : String)
    (fetch : String → Option (List SpotifyTrackIn))
    (features : String → Option AudioFeatures) : List ScoredTrack :=
  ((uniqueById (collectTracks (buildSearchQueries searchTerms genre) fetch excludeId)).map
    (scoreTrack bpm features)).filter fun s => s.bpmMatch

/-- the sorted match list (lines 1306-1314).  The source uses the stable
array sort of the runtime; insertion sort is stable for the same order, so
it yields the same list. -/
def rankedMatches (bpm : Nat) (excludeId searchTerms genre : String)
    (fetch : String → Option (List SpotifyTrackIn))
    (features : String → Option AudioFeatures) : List ScoredTrack :=
  (scoredMatches bpm excludeId searchTerms genre fetch features).insertionSort scoreLE

/-- the full track computation of the compatible route (lines 1127-1327):
sorted matches truncated to 25, each song carrying the actual bpm. -/
def compatiblePipeline (bpm : Nat) (excludeId searchTerms genre : String)
    (fetch : String → Option (List SpotifyTrackIn))
    (features : String → Option AudioFeatures) : List RouteSong :=
  ((rankedMatches bpm excludeId searchTerms genre fetch features).take 25).map
    fun s => { s.song with bpm := s.actualBpm }

/-- the compatible route handler after a successful bpm parse: it binds the
key parameter (line 1118) but uses it only in a log line, never in the
track computation. -/
def compatibleRouteTracks (bpm : Nat) (keyParam : Option String)
    (excludeId searchTerms genre : String)
    (fetch : String → Option (List SpotifyTrackIn))
    (features : String → Option AudioFeatures) : List RouteSong :=
  compatiblePipeline bpm excludeId searchTerms genre fetch features

/-- scenario pool for the ranking test: five candidates whose measured
tempos are 120, 240, 61, 58 and 200. -/
def scenarioPool : List SpotifyTrackIn :=
  [⟨"a", "A", ["AR"], "AL", 200000⟩,
   ⟨"b", "B", ["AR"], "AL", 200000⟩,
   ⟨"c", "C", ["AR"], "AL", 200000⟩,
   ⟨"d", "D", ["AR"], "AL", 200000⟩,
   ⟨"e", "E", ["AR"], "AL", 200000⟩]

/-- provider stub returning the scenario pool for every query. -/
def scenarioFetch : String → Option (List SpotifyTrackIn) := fun _ => some scenarioPool

/-- measured audio features of the scenario pool. -/
def scenarioFeatures : String → Option AudioFeatures := fun id =>
  if id = "a" then some ⟨120, 0, 1⟩
  else if id = "b" then some ⟨240, 0, 1⟩
  else if id = "c" then some ⟨61, 0, 1⟩
  else if id = "d" then some ⟨58, 0, 1⟩
  else if id = "e" then some ⟨200, 0, 1⟩
  else none

/-- provider stub for the bound-and-exclusion witness: one track. -/
def w4fetch : String → Option (List SpotifyTrackIn) :=
  fun _ => some [⟨"y", "A", ["AR"], "AL", 200000⟩]

/-- feature stub for the bound-and-exclusion witness. -/
def w4feat : String → Option AudioFeatures := fun _ => some ⟨120, 0, 1⟩

/-- the single song the witness pipeline returns. -/
def w4song : RouteSong := ⟨"y", "A", "AR", 120, "C major", 200, "spotify"⟩

end Mashups

namespace Mashups

/-- C1 counterexample: the claim asserts distance 0 for a double-tempo
candidate in the estimated-feature branch as well, but for target 120 the
candidate 240 gets distance 120 there. -/
theorem C1_counterexample : (estimatedCompat (120 * 2) 120).distance ≠ 0 := by decide

/-- C1 (amended): for every positive target t, a candidate at 2t and a
candidate at round(t/2) match in both branches; the measured-feature branch
gives distance 0, while the estimated-feature branch gives the plain
absolute difference (t for the double, t - round(t/2) for the half). -/
theorem C1_amended (t : Nat) (ht : 0 < t) :
    measuredCompat (t * 2) t = ⟨true, 0⟩ ∧
    measuredCompat (roundHalf t) t = ⟨true, 0⟩ ∧
    estimatedCompat (t * 2) t = ⟨true, t⟩ ∧
    estimatedCompat (roundHalf t) t = ⟨true, t - roundHalf t⟩ := by
  refine ⟨?_, ?_, ?_, ?_⟩
  · unfold measuredCompat
    rw [if_pos (Or.inr (Or.inl rfl))]
  · unfold measuredCompat
    rw [if_pos (Or.inr (Or.inr (Or.inl rfl)))]
  · unfold estimatedCompat
    rw [if_pos (by omega : t * 2 ≠ 0), if_pos (Or.inr (Or.inl rfl))]
    have h : absDiffN (t * 2) t = t := by unfold absDiffN; omega
    rw [h]
  · unfold estimatedCompat
    rw [if_pos (by unfold roundHalf; omega : roundHalf t ≠ 0),
      if_pos (Or.inr (Or.inr (Or.inl rfl)))]
    have h : absDiffN (roundHalf t) t = t - roundHalf t := by
      unfold absDiffN roundHalf; omega
    rw [h]

/-- C1 witness: the amended statement evaluated at the concrete target 120. -/
theorem C1_witness : estimatedCompat (120 * 2) 120 = ⟨true, 120⟩ :=
  (C1_amended 120 (by decide)).2.2.1

/-- C2 counterexample: the claim asserts a non-match whenever the absolute
difference is 6, including target 6 and candidate 12, but 12 is double 6,
so both branches report a match there. -/
theorem C2_counterexample :
    absDiffN 12 6 = 6 ∧ (measuredCompat 12 6).isMatch = true ∧
    (estimatedCompat 12 6).isMatch = true := by decide

/-- C2 (amended): for positive c and t with difference at most 5 both
branches match, the estimated branch reports exactly that difference, and
the measured branch does too unless an octave relation (c = 2t,
c = round(t/2), round(c/2) = t) forces distance 0; when the difference is
exactly 6 the estimated branch rejects unless c = 2t or c = round(t/2), and
the measured branch rejects unless an octave or near-double or near-half
relation applies. -/
theorem C2_amended (c t : Nat) (hc : 0 < c) (ht : 0 < t) :
    (absDiffN c t ≤ 5 →
      (measuredCompat c t).isMatch = true ∧
      (estimatedCompat c t).isMatch = true ∧
      (estimatedCompat c t).distance = absDiffN c t ∧
      (¬(c = t * 2 ∨ c = roundHalf t ∨ roundHalf c = t) →
        (measuredCompat c t).distance = absDiffN c t)) ∧
    (absDiffN c t = 6 →
      (¬(c = t * 2 ∨ c = roundHalf t) → (estimatedCompat c t).isMatch = false) ∧
      (¬(c = t * 2 ∨ c = roundHalf t ∨ roundHalf c = t ∨
          absDiffN c (t * 2) ≤ 5 ∨ absDiffN c (roundHalf t) ≤ 5) →
        (measuredCompat c t).isMatch = false)) := by
  constructor
  · intro h5
    refine ⟨?_, ?_, ?_, ?_⟩
    · unfold measuredCompat
      split_ifs <;> rfl
    · unfold estimatedCompat
      rw [if_pos (by omega : c ≠ 0), if_pos (Or.inr (Or.inr (Or.inr h5)))]
    · unfold estimatedCompat
      rw [if_pos (by omega : c ≠ 0), if_pos (Or.inr (Or.inr (Or.inr h5)))]
    · intro hoct
      unfold measuredCompat
      split_ifs with h1
      · rcases h1 with h | h | h | h
        · show 0 = absDiffN c t
          unfold absDiffN; omega
        · exact absurd (Or.inl h) hoct
        · exact absurd (Or.inr (Or.inl h)) hoct
        · exact absurd (Or.inr (Or.inr h)) hoct
      · rfl
  · intro h6
    constructor
    · intro hoct
      unfold estimatedCompat
      rw [if_pos (by omega : c ≠ 0)]
      rw [if_neg]
      intro hcase
      rcases hcase with h | h | h | h
      · unfold absDiffN at h6; omega
      · exact hoct (Or.inl h)
      · exact hoct (Or.inr h)
      · omega
    · intro hrel
      have hn1 : ¬(c = t ∨ c = t * 2 ∨ c = roundHalf t ∨ roundHalf c = t) := by
        intro hcase
        rcases hcase with h | h | h | h
        · unfold absDiffN at h6; omega
        · exact hrel (Or.inl h)
        · exact hrel (Or.inr (Or.inl h))
        · exact hrel (Or.inr (Or.inr (Or.inl h)))
      have hn2 : ¬ absDiffN c t ≤ 5 := by omega
      have hn3 : ¬ absDiffN c (t * 2) ≤ 5 := fun h =>
        hrel (Or.inr (Or.inr (Or.inr (Or.inl h))))
      have hn4 : ¬ absDiffN c (roundHalf t) ≤ 5 := fun h =>
        hrel (Or.inr (Or.inr (Or.inr (Or.inr h))))
      unfold measuredCompat
      rw [if_neg hn1, if_neg hn2, if_neg hn3, if_neg hn4]

/-- C2 witness: the amended statement evaluated at candidate 58, target 60
for the within-tolerance half and at candidate 86, target 80 for the
difference-6 half. -/
theorem C2_witness :
    (estimatedCompat 58 60).distance = absDiffN 58 60 ∧
    (measuredCompat 86 80).isMatch = false :=
  ⟨((C2_amended 58 60 (by decide) (by decide)).1 (by decide)).2.2.1,
    ((C2_amended 86 80 (by decide) (by decide)).2 (by decide)).2 (by decide)⟩

/-- members of the deduplicated list come from the original list. -/
theorem mem_of_mem_dedupByIdAux {x : SpotifyTrackIn} :
    ∀ {l : List SpotifyTrackIn} {seen : List String}, x ∈ dedupByIdAux l seen → x ∈ l := by
  intro l
  induction l with
  | nil => intro seen h; exact absurd h (by simp [dedupByIdAux])
  | cons t rest ih =>
      intro seen h
      unfold dedupByIdAux at h
      split at h
      · exact List.mem_cons_of_mem _ (ih h)
      · rcases List.mem_cons.mp h with h1 | h1
        · exact h1 ▸ List.mem_cons_self t rest
        · exact List.mem_cons_of_mem _ (ih h1)

/-- a key outside the first components of an association list looks up to
none. -/
theorem lookup_eq_none_of_not_mem_keys {β : Type} {l : List (String × β)} {k : String}
    (h : k ∉ l.map Prod.fst) : l.lookup k = none := by
  induction l with
  | nil => rfl
  | cons p rest ih =>
      obtain ⟨a, b⟩ := p
      have hk : k ≠ a := by
        intro he; exact h (by simp [he])
      have hne : (k == a) = false := beq_eq_false_iff_ne.mpr hk
      simp only [List.lookup, hne]
      exact ih fun hm => h (List.mem_cons_of_mem _ hm)

/-- a getD read inside the bounds returns a member of the list. -/
theorem getD_mem_of_lt {l : List String} {n : Nat} (h : n < l.length) (d : String) :
    l.getD n d ∈ l := by
  rw [List.getD_eq_getElem l d h]
  exact List.getElem_mem h

/-- C3: the ranked list is sorted by ascending tempo distance with the
measured-before-estimated tie-break, and on the scenario pool with target
bpm 120 the returned order is 120, 240, 61, 58 with the 200 bpm candidate
excluded. -/
theorem C3_rank_order :
    (∀ (bpm : Nat) (excludeId searchTerms genre : String)
        (fetch : String → Option (List SpotifyTrackIn))
        (features : String → Option AudioFeatures),
        List.Sorted scoreLE (rankedMatches bpm excludeId searchTerms genre fetch features)) ∧
    (compatiblePipeline 120 "" "x" "y" scenarioFetch scenarioFeatures).map (fun s => s.bpm) =
      [120, 240, 61, 58] ∧
    (compatiblePipeline 120 "" "x" "y" scenarioFetch scenarioFeatures).map (fun s => s.id) =
      ["a", "b", "c", "d"] := by
  refine ⟨?_, by decide, by decide⟩
  intro bpm excludeId searchTerms genre fetch features
  exact List.sorted_insertionSort scoreLE _

/-- C4: for every target bpm, exclusion id, query parameters and provider
behavior, the compatible route returns at most 25 tracks and never the
excluded id. -/
theorem C4_bounded_and_excludes (bpm : Nat) (excludeId searchTerms genre : String)
    (fetch : String → Option (List SpotifyTrackIn))
    (features : String → Option AudioFeatures) :
    (compatiblePipeline bpm excludeId searchTerms genre fetch features).length ≤ 25 ∧
    ∀ s ∈ compatiblePipeline bpm excludeId searchTerms genre fetch features,
      s.id ≠ excludeId := by
  constructor
  · unfold compatiblePipeline
    rw [List.length_map, List.length_take]
    omega
  · intro s hs
    unfold compatiblePipeline at hs
    rcases List.mem_map.mp hs with ⟨e, he, rfl⟩
    have h1 : e ∈ rankedMatches bpm excludeId searchTerms genre fetch features :=
      List.Sublist.mem he (List.take_sublist 25 _)
    have h2 : e ∈ scoredMatches bpm excludeId searchTerms genre fetch features :=
      (List.mem_insertionSort scoreLE).mp h1
    unfold scoredMatches at h2
    have h3 := (List.mem_filter.mp h2).1
    rcases List.mem_map.mp h3 with ⟨t, ht, rfl⟩
    have h4 : t ∈ collectTracks (buildSearchQueries searchTerms genre) fetch excludeId :=
      mem_of_mem_dedupByIdAux ht
    unfold collectTracks at h4
    rcases List.mem_flatMap.mp h4 with ⟨q, _, htq⟩
    unfold perQueryTracks at htq
    rcases hfq : fetch q with _ | items
    · rw [hfq] at htq; cases htq
    · rw [hfq] at htq
      have h5 := (List.mem_filter.mp htq).1
      have h6 := (List.mem_filter.mp h5).2
      have h7 : t.id ≠ excludeId := by simpa using h6
      have h8 : (scoreTrack bpm features t).song.id = t.id := by
        unfold scoreTrack convertCompatRoute
        cases features t.id <;> rfl
      show (scoreTrack bpm features t).song.id ≠ excludeId
      rw [h8]
      exact h7

/-- C4 witness: the bound and the exclusion evaluated on a one-track
provider stub with exclusion id x. -/
theorem C4_witness : w4song.id ≠ "x" :=
  (C4_bounded_and_excludes 120 "x" "s" "g" w4fetch w4feat).2 w4song (by decide)

/-- C5: the pseudo-feature generator is a pure deterministic function of
the title-artist pair, its bpm always lies in the inclusive range 60..180,
and its key always comes from the fixed key list. -/
theorem C5_deterministic_bpm_range (title artist : String) :
    generateFallbackFeatures title artist = generateFallbackFeatures title artist ∧
    60 ≤ (generateFallbackFeatures title artist).1 ∧
    (generateFallbackFeatures title artist).1 ≤ 180 ∧
    (generateFallbackFeatures title artist).2 ∈ fallbackKeys := by
  refine ⟨rfl, ?_, ?_, ?_⟩
  · show 60 ≤ 60 + charSum (title ++ artist) % 121
    omega
  · show 60 + charSum (title ++ artist) % 121 ≤ 180
    have := Nat.mod_lt (charSum (title ++ artist)) (by omega : 0 < 121)
    omega
  · show fallbackKeys.getD (charSum (title ++ artist) % fallbackKeys.length) "undefined" ∈
      fallbackKeys
    exact getD_mem_of_lt (Nat.mod_lt _ (by decide)) _

/-- C6: both key tables give every canonical key a non-empty list of at
most 5 keys, the F sharp minor entry is the expected non-empty list, and
any key absent from the table maps to the one-element list of itself. -/
theorem C6_key_table :
    (∀ k ∈ canonicalKeys,
        getCompatibleKeys k ≠ [] ∧ (getCompatibleKeys k).length ≤ 5 ∧
        getCompatibleKeysCompat k ≠ [] ∧ (getCompatibleKeysCompat k).length ≤ 5) ∧
    getCompatibleKeys "F# minor" = ["A major", "D major", "E major", "B minor", "C# minor"] ∧
    (∀ k, k ∉ keyCompatibility.map Prod.fst → getCompatibleKeys k = [k]) ∧
    getCompatibleKeys "Not A Key" = ["Not A Key"] := by
  refine ⟨by decide, by decide, ?_, by decide⟩
  intro k hk
  unfold getCompatibleKeys
  rw [lookup_eq_none_of_not_mem_keys hk]

/-- C6 witness: the bound evaluated at C major and the reflexive fallback
evaluated at a string outside the table. -/
theorem C6_witness :
    (getCompatibleKeys "C major" ≠ [] ∧ (getCompatibleKeys "C major").length ≤ 5 ∧
      getCompatibleKeysCompat "C major" ≠ [] ∧
      (getCompatibleKeysCompat "C major").length ≤ 5) ∧
    getCompatibleKeys "zzz" = ["zzz"] :=
  ⟨C6_key_table.1 "C major" (by decide), C6_key_table.2.2.1 "zzz" (by decide)⟩

/-- C7 counterexample: the search route converter with measured features at
pitch class 0 in major builds the key C, which is neither one of the 24
canonical long key names nor the string Unknown. -/
theorem C7_counterexample :
    (convertSearchRoute ⟨"i", "T", ["A"], "AL", 200000⟩ (some ⟨120, 0, 1⟩)).key = "C" ∧
    "C" ∉ canonicalKeys ∧ "C" ≠ "Unknown" := by decide

/-- C7 (amended): estimated tracks from either route carry a bpm in 60..180
and a key from the fixed 14-entry estimation list (which includes the
flat-spelled Bb major outside the sharp canonical names); measured tracks
carry the rounded provider tempo as bpm and a key in the short pitch-class
form on the search route and the long form on the compatible route; the
fallback catalog tracks all carry a positive bpm and a canonical key. -/
theorem C7_amended (t : SpotifyTrackIn) (af : AudioFeatures) :
    (60 ≤ (convertSearchRoute t none).bpm ∧ (convertSearchRoute t none).bpm ≤ 180 ∧
      (convertSearchRoute t none).key ∈ estimationKeys ∧
      60 ≤ (convertCompatRoute t none).bpm ∧ (convertCompatRoute t none).bpm ≤ 180 ∧
      (convertCompatRoute t none).key ∈ estimationKeys) ∧
    ((convertSearchRoute t (some af)).bpm = af.tempo ∧
      (convertSearchRoute t (some af)).key =
        pitchClassAt af.key ++ (if af.mode = 1 then "" else "m") ∧
      (convertCompatRoute t (some af)).bpm = af.tempo ∧
      (convertCompatRoute t (some af)).key =
        pitchClassAt af.key ++ (if af.mode = 1 then " major" else " minor")) ∧
    (∀ s ∈ FALLBACK_SONGS, 0 < s.bpm ∧ s.key ∈ canonicalKeys) := by
  refine ⟨⟨?_, ?_, ?_, ?_, ?_, ?_⟩, ⟨rfl, rfl, rfl, rfl⟩, by decide⟩
  · show 60 ≤ 60 + charSum (t.name ++ t.artists.headD "") % 121
    omega
  · show 60 + charSum (t.name ++ t.artists.headD "") % 121 ≤ 180
    have := Nat.mod_lt (charSum (t.name ++ t.artists.headD "")) (by omega : 0 < 121)
    omega
  · show estimationKeys.getD
      (charSum (t.name ++ t.artists.headD "") % estimationKeys.length) "undefined" ∈
      estimationKeys
    exact getD_mem_of_lt (Nat.mod_lt _ (by decide)) _
  · show 60 ≤ 60 + charSum (t.name ++ t.artists.headD "") % 121
    omega
  · show 60 + charSum (t.name ++ t.artists.headD "") % 121 ≤ 180
    have := Nat.mod_lt (charSum (t.name ++ t.artists.headD "")) (by omega : 0 < 121)
    omega
  · show estimationKeys.getD
      (charSum (t.name ++ t.artists.headD "") % estimationKeys.length) "undefined" ∈
      estimationKeys
    exact getD_mem_of_lt (Nat.mod_lt _ (by decide)) _

/-- C7 witness: the fallback-catalog part of the amended statement
evaluated at the first catalog entry. -/
theorem C7_witness :
    0 < (Song.mk "1" "Blinding Lights" "The Weeknd" 171 "F# minor" 200
      "4NRXx6U8ABQ" "fallback").bpm ∧
    (Song.mk "1" "Blinding Lights" "The Weeknd" 171 "F# minor" 200
      "4NRXx6U8ABQ" "fallback").key ∈ canonicalKeys :=
  (C7_amended ⟨"i", "T", ["A"], "AL", 200000⟩ ⟨120, 0, 1⟩).2.2
    (Song.mk "1" "Blinding Lights" "The Weeknd" 171 "F# minor" 200
      "4NRXx6U8ABQ" "fallback") (by decide)

/-- C8: when the proxy call rejects (for example because the provider
answered 403 on every call), searchSongs answers with the fallback catalog
filtered by case-insensitive substring match of the query over title and
artist, paginated by slice; every returned song comes from the catalog and
the answer is a plain result record, never an error payload. -/
theorem C8_fallback_on_error (e : Unit) (query : String) (page limit : Nat)
    (hp : 1 ≤ page) :
    (searchSongs (Except.error e) query page limit).songs =
      ((FALLBACK_SONGS.filter (fallbackMatches query)).drop ((page - 1) * limit)).take limit ∧
    (searchSongs (Except.error e) query page limit).total =
      (FALLBACK_SONGS.filter (fallbackMatches query)).length ∧
    (searchSongs (Except.error e) query page limit).page = page ∧
    ∀ s ∈ (searchSongs (Except.error e) query page limit).songs, s ∈ FALLBACK_SONGS := by
  refine ⟨rfl, rfl, rfl, ?_⟩
  intro s hs
  have h1 : s ∈ (FALLBACK_SONGS.filter (fallbackMatches query)).drop ((page - 1) * limit) :=
    List.Sublist.mem hs (List.take_sublist _ _)
  have h2 : s ∈ FALLBACK_SONGS.filter (fallbackMatches query) :=
    List.Sublist.mem h1 (List.drop_sublist _ _)
  exact (List.mem_filter.mp h2).1

/-- C8 witness: the fallback search evaluated at the query Weeknd on page 1
with the default limit. -/
theorem C8_witness :
    (searchSongs (Except.error ()) "Weeknd" 1 10).songs =
      ((FALLBACK_SONGS.filter (fallbackMatches "Weeknd")).drop 0).take 10 ∧
    Song.mk "1" "Blinding Lights" "The Weeknd" 171 "F# minor" 200
      "4NRXx6U8ABQ" "fallback" ∈ FALLBACK_SONGS :=
  ⟨(C8_fallback_on_error () "Weeknd" 1 10 (by decide)).1,
    (C8_fallback_on_error () "Weeknd" 1 10 (by decide)).2.2.2
      (Song.mk "1" "Blinding Lights" "The Weeknd" 171 "F# minor" 200
        "4NRXx6U8ABQ" "fallback") (by decide)⟩

/-- C9 counterexample: the bpm parameter -5 is not a positive integer, yet
the guard lets it proceed, because parseInt yields the truthy value -5. -/
theorem C9_counterexample :
    compatibleEndpointGate (some "-5") = CompatGate.proceeds (-5) ∧ (-5 : Int) < 0 := by
  decide

/-- C9 (amended): an absent bpm, the bpm 0 and a non-numeric bpm are all
rejected with the client error and no fallback data, but any parameter whose
parseInt value is a nonzero integer, negative ones included, proceeds to
the search. -/
theorem C9_amended :
    compatibleEndpointGate none = CompatGate.clientError ∧
    compatibleEndpointGate (some "0") = CompatGate.clientError ∧
    compatibleEndpointGate (some "abc") = CompatGate.clientError ∧
    (∀ s, jsParseInt (bpmRaw (some s)) = none →
      compatibleEndpointGate (some s) = CompatGate.clientError) ∧
    (∀ s v, jsParseInt (bpmRaw (some s)) = some v → v ≠ 0 →
      compatibleEndpointGate (some s) = CompatGate.proceeds v) := by
  refine ⟨by decide, by decide, by decide, ?_, ?_⟩
  · intro s h
    unfold compatibleEndpointGate
    rw [h]
  · intro s v h hv
    unfold compatibleEndpointGate
    rw [h]
    show (if v = 0 then CompatGate.clientError else CompatGate.proceeds v) =
      CompatGate.proceeds v
    rw [if_neg hv]

/-- C9 witness: the amended statement evaluated at a non-numeric parameter
and at the negative parameter -5. -/
theorem C9_witness :
    compatibleEndpointGate (some "xx") = CompatGate.clientError ∧
    compatibleEndpointGate (some "-5") = CompatGate.proceeds (-5) :=
  ⟨C9_amended.2.2.2.1 "xx" (by decide),
    C9_amended.2.2.2.2 "-5" (-5) (by decide) (by decide)⟩

/-- C10: the compatible route computes the same track list for any two
values of the key parameter, absence included: candidates are filtered and
ranked by tempo only, never hard-filtered by key compatibility. -/
theorem C10_key_independent (bpm : Nat) (k1 k2 : Option String)
    (excludeId searchTerms genre : String)
    (fetch : String → Option (List SpotifyTrackIn))
    (features : String → Option AudioFeatures) :
    compatibleRouteTracks bpm k1 excludeId searchTerms genre fetch features =
    compatibleRouteTracks bpm k2 excludeId searchTerms genre fetch features := rfl

end Mashups
